import Mathlib

/-!
Verification of the Linear CLI client (`src/linear`) against its specification.

The development shallowly embeds the Python source:

* `Api` — the GraphQL query builder of `api.py` (`list_issues`, `search_issues`,
  `list_projects`, `list_teams`): filter-object construction and pagination.
* `Transport` — the error mapping of `LinearClient.query`.
* `Models` — the connection-wrapper flattening validator of `models.py` and the
  single-entity lookups of `api.py`.
* `Fmt` — the grouped-table partitioning of `formatters.py`.
* `Editor` — the YAML round-trip of `utils/editor.py`.

Python strings are modelled as `String` where only equality matters and as
`List Char` (code points, matching Python `str` semantics) where the proofs
compute on their structure.  Python dicts appearing in filter objects and JSON
responses are modelled as association lists in insertion order; the dicts built
by the source never carry duplicate keys.
-/

namespace Api

/-- GraphQL filter values: the JSON-like structures `list_issues` builds into
its `filter` variable (nested objects, strings, integers, lists). -/
inductive FVal where
  | fstr (s : String)
  | fint (n : Int)
  | fobj (fields : List (String × FVal))
  | flist (xs : List FVal)

/-- Python truthiness of an optional string parameter (`if assignee:`):
present and non-empty. -/
def strTruthy : Option String → Bool
  | some s => !s.isEmpty
  | none => false

/-- Python truthiness of an optional list parameter (`if labels:`):
present and non-empty. -/
def listTruthy : Option (List String) → Bool
  | some l => !l.isEmpty
  | none => false

/-- The project filter branch of `list_issues` (api.py lines 131-136):
a 36-character string containing a hyphen is treated as a UUID and matched by
id equality, anything else by case-sensitive name substring.  Python's
`"-" in project` on a single-character needle is character membership. -/
def projectFilter (project : String) : FVal :=
  if project.length = 36 && project.toList.contains '-' then
    .fobj [("id", .fobj [("eq", .fstr project)])]
  else
    .fobj [("name", .fobj [("contains", .fstr project)])]

/-- The team filter of `list_issues` (api.py lines 141-148). -/
def teamFilter (team : String) : FVal :=
  .fobj [("or", .flist
    [ .fobj [("key", .fobj [("eqIgnoreCase", .fstr team)])]
    , .fobj [("name", .fobj [("containsIgnoreCase", .fstr team)])] ])]

/-- Optional parameters of `LinearClient.list_issues` that feed the filter
object (api.py lines 94-105). -/
structure ListIssuesParams where
  assignee : Option String := none
  project : Option String := none
  status : Option String := none
  team : Option String := none
  priority : Option Int := none
  labels : Option (List String) := none

/-- The filter dict built by `LinearClient.list_issues` (api.py lines 126-154),
as an association list in insertion order.  Each key is added exactly when the
corresponding parameter is truthy (`priority` uses `is not None`). -/
def list_issues_filters (p : ListIssuesParams) : List (String × FVal) :=
  (match p.assignee with
   | some a => if a.isEmpty then [] else
       [("assignee", .fobj [("email", .fobj [("eq", .fstr a)])])]
   | none => [])
  ++ (match p.project with
      | some pr => if pr.isEmpty then [] else [("project", projectFilter pr)]
      | none => [])
  ++ (match p.status with
      | some s => if s.isEmpty then [] else
          [("state", .fobj [("name", .fobj [("eqIgnoreCase", .fstr s)])])]
      | none => [])
  ++ (match p.team with
      | some t => if t.isEmpty then [] else [("team", teamFilter t)]
      | none => [])
  ++ (match p.priority with
      | some n => [("priority", .fobj [("eq", .fint n)])]
      | none => [])
  ++ (match p.labels with
      | some l => if l.isEmpty then [] else
          [("labels", .fobj [("name", .fobj [("in", .flist (l.map .fstr))])])]
      | none => [])

/-- The `filter` GraphQL variable of `list_issues` (api.py line 209):
`filters if filters else None`. -/
def list_issues_filter_variable (p : ListIssuesParams) :
    Option (List (String × FVal)) :=
  if (list_issues_filters p).isEmpty then none else some (list_issues_filters p)

/-- The `first` GraphQL variable of `list_issues` (api.py line 210):
`min(limit, 250)`. -/
def list_issues_first (limit : Int) : Int := min limit 250

/-- The `first` GraphQL variable of `search_issues` (api.py line 295). -/
def search_issues_first (limit : Int) : Int := min limit 250

/-- The `first` GraphQL variable of `list_projects` (api.py line 481). -/
def list_projects_first (limit : Int) : Int := min limit 250

/-- The `first` GraphQL variable of `list_teams` (api.py line 630). -/
def list_teams_first (limit : Int) : Int := min limit 250

end Api

namespace Api

/-- Helper view: an optional-string-driven filter entry, the common shape of
the `assignee`/`project`/`state`/`team` blocks of `list_issues`. -/
def optEntry (key : String) (f : String → FVal) (o : Option String) :
    List (String × FVal) :=
  match o with
  | some a => if a.isEmpty then [] else [(key, f a)]
  | none => []

/-- Helper view: the `priority` block of `list_issues` (`is not None` check). -/
def prioEntry (o : Option Int) : List (String × FVal) :=
  match o with
  | some n => [("priority", .fobj [("eq", .fint n)])]
  | none => []

/-- Helper view: the `labels` block of `list_issues`. -/
def labelsEntry (o : Option (List String)) : List (String × FVal) :=
  match o with
  | some l => if l.isEmpty then [] else
      [("labels", .fobj [("name", .fobj [("in", .flist (l.map .fstr))])])]
  | none => []

theorem list_issues_filters_eq (p : ListIssuesParams) :
    list_issues_filters p =
      optEntry "assignee" (fun a => .fobj [("email", .fobj [("eq", .fstr a)])])
        p.assignee
      ++ optEntry "project" projectFilter p.project
      ++ optEntry "state"
          (fun s => .fobj [("name", .fobj [("eqIgnoreCase", .fstr s)])]) p.status
      ++ optEntry "team" teamFilter p.team
      ++ prioEntry p.priority
      ++ labelsEntry p.labels := rfl

theorem mem_optEntry {key k : String} {f : String → FVal} {o : Option String}
    {v : FVal} :
    (k, v) ∈ optEntry key f o ↔ ∃ a, o = some a ∧ a ≠ "" ∧ k = key ∧ v = f a := by
  cases o with
  | none => simp [optEntry]
  | some a =>
    by_cases h : a.isEmpty <;>
      simp_all [optEntry, String.isEmpty_iff]

theorem mem_prioEntry {k : String} {o : Option Int} {v : FVal} :
    (k, v) ∈ prioEntry o ↔
      ∃ n, o = some n ∧ k = "priority" ∧ v = .fobj [("eq", .fint n)] := by
  cases o <;> simp [prioEntry]

theorem mem_labelsEntry {k : String} {o : Option (List String)} {v : FVal} :
    (k, v) ∈ labelsEntry o ↔
      ∃ l, o = some l ∧ l ≠ [] ∧ k = "labels" ∧
        v = .fobj [("name", .fobj [("in", .flist (l.map .fstr))])] := by
  cases o with
  | none => simp [labelsEntry]
  | some l =>
    by_cases h : l.isEmpty <;>
      simp_all [labelsEntry, List.isEmpty_iff]

theorem map_fst_optEntry (key : String) (f : String → FVal) (o : Option String) :
    (optEntry key f o).map Prod.fst = if strTruthy o then [key] else [] := by
  cases o with
  | none => simp [optEntry, strTruthy]
  | some a => by_cases h : a.isEmpty <;> simp [optEntry, strTruthy, h]

theorem map_fst_prioEntry (o : Option Int) :
    (prioEntry o).map Prod.fst = if o.isSome then ["priority"] else [] := by
  cases o <;> simp [prioEntry]

theorem map_fst_labelsEntry (o : Option (List String)) :
    (labelsEntry o).map Prod.fst = if listTruthy o then ["labels"] else [] := by
  cases o with
  | none => simp [labelsEntry, listTruthy]
  | some l => by_cases h : l.isEmpty <;> simp [labelsEntry, listTruthy, h]

/-- Claim C1: the filter object built by `list_issues` contains exactly the keys
of the truthy parameters, with the documented shapes
(`assignee -> email.eq`, `project`, `state -> name.eqIgnoreCase`, `team`,
`priority -> eq`, `labels -> name.in`); absent parameters contribute no key at
all; and the scenario `status="In Progress"`, `priority=1` yields exactly
`{state: {name: {eqIgnoreCase: "In Progress"}}, priority: {eq: 1}}`. -/
theorem C1_list_issues_filter_exact (p : ListIssuesParams) :
    ((list_issues_filters p).map Prod.fst =
      (if strTruthy p.assignee then ["assignee"] else [])
      ++ (if strTruthy p.project then ["project"] else [])
      ++ (if strTruthy p.status then ["state"] else [])
      ++ (if strTruthy p.team then ["team"] else [])
      ++ (if p.priority.isSome then ["priority"] else [])
      ++ (if listTruthy p.labels then ["labels"] else []))
  ∧ (∀ v, ("assignee", v) ∈ list_issues_filters p ↔
      ∃ a, p.assignee = some a ∧ a ≠ "" ∧
        v = .fobj [("email", .fobj [("eq", .fstr a)])])
  ∧ (∀ v, ("project", v) ∈ list_issues_filters p ↔
      ∃ a, p.project = some a ∧ a ≠ "" ∧ v = projectFilter a)
  ∧ (∀ v, ("state", v) ∈ list_issues_filters p ↔
      ∃ a, p.status = some a ∧ a ≠ "" ∧
        v = .fobj [("name", .fobj [("eqIgnoreCase", .fstr a)])])
  ∧ (∀ v, ("team", v) ∈ list_issues_filters p ↔
      ∃ a, p.team = some a ∧ a ≠ "" ∧ v = teamFilter a)
  ∧ (∀ v, ("priority", v) ∈ list_issues_filters p ↔
      ∃ n, p.priority = some n ∧ v = .fobj [("eq", .fint n)])
  ∧ (∀ v, ("labels", v) ∈ list_issues_filters p ↔
      ∃ l, p.labels = some l ∧ l ≠ [] ∧
        v = .fobj [("name", .fobj [("in", .flist (l.map .fstr))])])
  ∧ list_issues_filters { status := some "In Progress", priority := some 1 } =
      [("state", .fobj [("name", .fobj [("eqIgnoreCase", .fstr "In Progress")])]),
       ("priority", .fobj [("eq", .fint 1)])] := by
  refine ⟨?_, ?_, ?_, ?_, ?_, ?_, ?_, rfl⟩ <;>
    simp only [list_issues_filters_eq, List.map_append, List.mem_append,
      map_fst_optEntry, map_fst_prioEntry, map_fst_labelsEntry,
      mem_optEntry, mem_prioEntry, mem_labelsEntry] <;>
    simp

/-- Witness for C1 at a concrete parameter set. -/
theorem C1_list_issues_filter_exact_witness :
    (list_issues_filters { assignee := some "a@b.c", priority := some 2 }).map
      Prod.fst = ["assignee", "priority"] :=
  (C1_list_issues_filter_exact
    { assignee := some "a@b.c", priority := some 2 }).1

/-- Claim C2: for every requested limit `≥ 0`, every list operation sends page
size `min(limit, 250)` to the server; consequently the page size never exceeds
250 and equals the limit whenever the limit is at most 250. -/
theorem C2_page_size (limit : Int) (h : 0 ≤ limit) :
    list_issues_first limit = min limit 250
  ∧ search_issues_first limit = min limit 250
  ∧ list_projects_first limit = min limit 250
  ∧ list_teams_first limit = min limit 250
  ∧ list_issues_first limit ≤ 250
  ∧ (limit ≤ 250 → list_issues_first limit = limit) := by
  refine ⟨rfl, rfl, rfl, rfl, min_le_right _ _, fun hle => min_eq_left hle⟩

/-- Witness for C2 at limit 10 (the spec scenario's page size). -/
theorem C2_page_size_witness :
    list_issues_first 10 = min 10 250 ∧ list_issues_first 10 = 10 :=
  ⟨(C2_page_size 10 (by norm_num)).1,
   (C2_page_size 10 (by norm_num)).2.2.2.2.2 (by norm_num)⟩

/-- Claim C3: a non-empty project filter string of exactly 36 characters
containing a hyphen is classified as an identifier filter (`{id: {eq: _}}`);
any other non-empty string becomes a case-sensitive name-substring filter
(`{name: {contains: _}}`); the concrete 36-character hyphenated string of the
scenario is classified as an identifier filter. -/
theorem C3_project_filter_heuristic (p : String) (hp : p ≠ "") :
    (p.length = 36 → p.toList.contains '-' = true →
      projectFilter p = .fobj [("id", .fobj [("eq", .fstr p)])])
  ∧ (¬ (p.length = 36 ∧ p.toList.contains '-' = true) →
      projectFilter p = .fobj [("name", .fobj [("contains", .fstr p)])])
  ∧ projectFilter "a1b2c3d4-0000-0000-0000-000000000000" =
      .fobj [("id", .fobj [("eq",
        .fstr "a1b2c3d4-0000-0000-0000-000000000000")])] := by
  refine ⟨fun h36 hdash => ?_, fun hnot => ?_, by rfl⟩
  · rw [projectFilter, if_pos]
    simp only [h36, hdash, Bool.and_self, decide_True]
  · rw [projectFilter, if_neg]
    simp only [Bool.and_eq_true, decide_eq_true_eq]
    exact fun ⟨h1, h2⟩ => hnot ⟨h1, h2⟩

/-- Witness for C3 at the scenario's identifier string. -/
theorem C3_project_filter_heuristic_witness :
    projectFilter "a1b2c3d4-0000-0000-0000-000000000000" =
      .fobj [("id", .fobj [("eq",
        .fstr "a1b2c3d4-0000-0000-0000-000000000000")])] :=
  (C3_project_filter_heuristic "a1b2c3d4-0000-0000-0000-000000000000"
    (by decide)).1 (by decide) (by decide)

end Api

namespace Models

/-- A Python/JSON value as it appears in GraphQL response dicts: `None`,
booleans, integers, strings, lists, and dicts (association lists). -/
inductive PyVal where
  | pnone
  | pbool (b : Bool)
  | pint (n : Int)
  | pstr (s : String)
  | plist (xs : List PyVal)
  | pdict (fields : List (String × PyVal))

/-- Python truthiness: `None`, `False`, `0`, `""`, `[]` and `{}` are falsy. -/
def pyTruthy : PyVal → Bool
  | .pnone => false
  | .pbool b => b
  | .pint n => !(n == 0)
  | .pstr s => !s.isEmpty
  | .plist xs => !xs.isEmpty
  | .pdict fs => !fs.isEmpty

/-- `dict.get(key)`: the stored value, or `None` when the key is absent. -/
def pyGet (d : List (String × PyVal)) (key : String) : PyVal :=
  (d.lookup key).getD .pnone

/-- The `extract_nodes` validator shared by `Issue` (models.py lines 324-330)
and, with identical code, `Project.extract_teams_nodes` (lines 175-181):
`if isinstance(v, dict) and "nodes" in v: return v["nodes"]; return v or []`. -/
def extract_nodes (v : PyVal) : PyVal :=
  match v with
  | .pdict fields =>
      match fields.lookup "nodes" with
      | some inner => inner
      | none => if pyTruthy (.pdict fields) then .pdict fields else .plist []
  | u => if pyTruthy u then u else .plist []

/-- `Project.extract_teams_nodes` (models.py lines 175-181), the same code. -/
def extract_teams_nodes (v : PyVal) : PyVal := extract_nodes v

/-- `LinearClient.get_issue` after the transport returned response dict
`response` (api.py lines 395-400): a falsy `issue` field is a not-found
error naming the identifier, otherwise the response is returned unchanged. -/
def get_issue (issue_id : String) (response : List (String × PyVal)) :
    Except String (List (String × PyVal)) :=
  if !pyTruthy (pyGet response "issue") then
    .error ("Issue '" ++ issue_id ++ "' not found")
  else
    .ok response

/-- `LinearClient.get_project` (api.py lines 563-568). -/
def get_project (project_id : String) (response : List (String × PyVal)) :
    Except String (List (String × PyVal)) :=
  if !pyTruthy (pyGet response "project") then
    .error ("Project '" ++ project_id ++ "' not found")
  else
    .ok response

/-- `LinearClient.get_team` (api.py lines 726-731). -/
def get_team (team_id : String) (response : List (String × PyVal)) :
    Except String (List (String × PyVal)) :=
  if !pyTruthy (pyGet response "team") then
    .error ("Team '" ++ team_id ++ "' not found")
  else
    .ok response

/-- Claim C4: connection-wrapper flattening is total (defined on every value,
falsy inputs — `None`, `[]`, `{}` — give `[]`, never an error), a dict carrying
a `nodes` list maps to the inner list, a plain list is returned unchanged, and
it is idempotent whenever the first application yields a list. -/
theorem C4_extract_nodes_flattening :
    (∀ fields xs, fields.lookup "nodes" = some (.plist xs) →
      extract_nodes (.pdict fields) = .plist xs)
  ∧ (∀ xs, extract_nodes (.plist xs) = .plist xs)
  ∧ extract_nodes .pnone = .plist []
  ∧ extract_nodes (.pdict []) = .plist []
  ∧ extract_nodes (.plist []) = .plist []
  ∧ (∀ v xs, extract_nodes v = .plist xs →
      extract_nodes (extract_nodes v) = extract_nodes v)
  ∧ (∀ v, extract_teams_nodes v = extract_nodes v) := by
  refine ⟨fun fields xs h => ?_, fun xs => ?_, rfl, rfl, rfl,
    fun v xs h => ?_, fun v => rfl⟩
  · simp [extract_nodes, h]
  · cases xs <;> simp [extract_nodes, pyTruthy]
  · rw [h]
    cases xs <;> simp [extract_nodes, pyTruthy]

/-- Witness for C4: flattening a concrete wrapper, and idempotence there. -/
theorem C4_extract_nodes_flattening_witness :
    extract_nodes (.pdict [("nodes", .plist [.pint 1])]) = .plist [.pint 1]
  ∧ extract_nodes (extract_nodes (.pdict [("nodes", .plist [.pint 1])])) =
      extract_nodes (.pdict [("nodes", .plist [.pint 1])]) :=
  ⟨C4_extract_nodes_flattening.1 [("nodes", .plist [.pint 1])] [.pint 1] rfl,
   C4_extract_nodes_flattening.2.2.2.2.2.1 (.pdict [("nodes", .plist [.pint 1])])
     [.pint 1]
     (C4_extract_nodes_flattening.1 [("nodes", .plist [.pint 1])] [.pint 1] rfl)⟩

/-- Claim C5 counterexample: a response whose `issue` field is present and
non-null — the empty object — still raises the not-found error, contradicting
"when the entity field is present and non-null the response is returned
unchanged". -/
theorem C5_counterexample_empty_entity :
    get_issue "ENG-1" [("issue", .pdict [])] = .error "Issue 'ENG-1' not found"
  ∧ ([("issue", PyVal.pdict [])].lookup "issue" = some (.pdict []))
  ∧ PyVal.pdict [] ≠ PyVal.pnone := by
  refine ⟨rfl, rfl, by simp⟩

/-- Claim C5 (amended): a single-entity lookup raises a not-found error naming
the requested identifier exactly when the entity field of the response is
falsy — null, missing, or empty — and returns the response unchanged exactly
when the field is truthy (in particular for every non-empty entity object). -/
theorem C5_single_entity_not_found (id : String)
    (response : List (String × PyVal)) :
    (pyTruthy (pyGet response "issue") = false →
      get_issue id response = .error ("Issue '" ++ id ++ "' not found"))
  ∧ (pyTruthy (pyGet response "issue") = true → get_issue id response = .ok response)
  ∧ (pyTruthy (pyGet response "project") = false →
      get_project id response = .error ("Project '" ++ id ++ "' not found"))
  ∧ (pyTruthy (pyGet response "project") = true →
      get_project id response = .ok response)
  ∧ (pyTruthy (pyGet response "team") = false →
      get_team id response = .error ("Team '" ++ id ++ "' not found"))
  ∧ (pyTruthy (pyGet response "team") = true → get_team id response = .ok response)
  ∧ (response.lookup "issue" = none → pyTruthy (pyGet response "issue") = false)
  ∧ (response.lookup "issue" = some .pnone →
      pyTruthy (pyGet response "issue") = false) := by
  refine ⟨fun h => ?_, fun h => ?_, fun h => ?_, fun h => ?_, fun h => ?_,
    fun h => ?_, fun h => ?_, fun h => ?_⟩ <;>
    first
      | simp [get_issue, get_project, get_team, h]
      | simp [pyGet, h, pyTruthy]

/-- Witness for C5 (amended): a null `issue` field yields the not-found error;
a non-empty `issue` object is passed through. -/
theorem C5_single_entity_not_found_witness :
    get_issue "ENG-1" [("issue", .pnone)] = .error "Issue 'ENG-1' not found"
  ∧ get_issue "ENG-1" [("issue", .pdict [("id", .pstr "x")])] =
      .ok [("issue", .pdict [("id", .pstr "x")])] :=
  ⟨(C5_single_entity_not_found "ENG-1" [("issue", .pnone)]).1 rfl,
   (C5_single_entity_not_found "ENG-1"
     [("issue", .pdict [("id", .pstr "x")])]).2.1 rfl⟩

end Models

namespace Transport

/-- The typed error taxonomy of `LinearClient.query`: each constructor is one
raise site of api.py lines 61-92, carrying the exact message the code builds
(the code uses a single exception class; the branch taken identifies the
kind). -/
inductive LinearError where
  | authentication (msg : String)
  | rateLimit (msg : String)
  | httpError (msg : String)
  | network (msg : String)
  | application (msg : String)

/-- `LinearClient.RATE_LIMIT` (api.py line 19). -/
def RATE_LIMIT : Nat := 1500

/-- Python `", ".join(...)`. -/
def joinComma : List String → String
  | [] => ""
  | [m] => m
  | m :: rest => m ++ ", " ++ joinComma rest

/-- One HTTP exchange as the transport sees it: either a response (status,
body text, the parsed body's optional top-level `errors` message list and its
`data` dict), or a connection-level failure (`httpx.RequestError`). -/
inductive HttpOutcome where
  | response (status : Nat) (text : String) (bodyErrors : Option (List String))
      (bodyData : List (String × Models.PyVal))
  | requestError (msg : String)

/-- `LinearClient.query` error mapping (api.py lines 61-92):
`raise_for_status` raises for every non-2xx status, caught and dispatched on
401 / 429 / other; a 2xx body with a top-level `errors` list raises the
GraphQL application error; `httpx.RequestError` becomes the network error;
otherwise the body's `data` is returned. -/
def query (o : HttpOutcome) : Except LinearError (List (String × Models.PyVal)) :=
  match o with
  | .requestError msg => .error (.network ("Network error: " ++ msg))
  | .response status text bodyErrors bodyData =>
    if 200 ≤ status ∧ status < 300 then
      match bodyErrors with
      | some msgs => .error (.application ("GraphQL errors: " ++ joinComma msgs))
      | none => .ok bodyData
    else if status = 401 then
      .error (.authentication
        ("Authentication failed. Check your API key.\n" ++
         "Get your API key at: https://linear.app/settings/api"))
    else if status = 429 then
      .error (.rateLimit
        ("Rate limit exceeded. Linear API allows " ++ toString RATE_LIMIT ++
         " requests per hour.\nPlease wait before making more requests."))
    else
      .error (.httpError
        ("HTTP error: " ++ toString status ++ " - " ++ text))

/-- Claim C6: the transport maps each failure to exactly one error kind —
401 to the authentication error with key guidance, 429 to the rate-limit
error whose message contains the numeric hourly quota 1500, every other
non-2xx status to the generic HTTP error carrying status code and body text,
connection failures to the network error, and a 2xx body with a top-level
`errors` list to the application error carrying the concatenated server
messages; a clean 2xx body is returned as data. -/
theorem C6_query_error_mapping (status : Nat) (text : String)
    (bodyErrors : Option (List String)) (bodyData : List (String × Models.PyVal)) :
    (¬ (200 ≤ status ∧ status < 300) → status = 401 →
      query (.response status text bodyErrors bodyData) =
        .error (.authentication
          ("Authentication failed. Check your API key.\n" ++
           "Get your API key at: https://linear.app/settings/api")))
  ∧ (¬ (200 ≤ status ∧ status < 300) → status = 429 →
      query (.response status text bodyErrors bodyData) =
        .error (.rateLimit
          ("Rate limit exceeded. Linear API allows " ++ toString RATE_LIMIT ++
           " requests per hour.\nPlease wait before making more requests.")))
  ∧ (status = 429 →
      ∃ before after,
        ("Rate limit exceeded. Linear API allows " ++ toString RATE_LIMIT ++
         " requests per hour.\nPlease wait before making more requests.") =
        before ++ "1500" ++ after)
  ∧ (¬ (200 ≤ status ∧ status < 300) → status ≠ 401 → status ≠ 429 →
      query (.response status text bodyErrors bodyData) =
        .error (.httpError ("HTTP error: " ++ toString status ++ " - " ++ text)))
  ∧ (∀ msg, query (.requestError msg) =
      .error (.network ("Network error: " ++ msg)))
  ∧ (200 ≤ status ∧ status < 300 → ∀ msgs, bodyErrors = some msgs →
      query (.response status text bodyErrors bodyData) =
        .error (.application ("GraphQL errors: " ++ joinComma msgs)))
  ∧ (200 ≤ status ∧ status < 300 → bodyErrors = none →
      query (.response status text bodyErrors bodyData) = .ok bodyData) := by
  refine ⟨fun h2 h401 => ?_, fun h2 h429 => ?_,
    fun _ => ⟨"Rate limit exceeded. Linear API allows ",
      " requests per hour.\nPlease wait before making more requests.", rfl⟩,
    fun h2 h401 h429 => ?_, fun msg => rfl, fun h2 msgs hm => ?_,
    fun h2 hn => ?_⟩
  · subst h401; simp [query, h2]
  · subst h429; simp [query, h2]
  · simp [query, h2, h401, h429]
  · simp [query, h2, hm]
  · simp [query, h2, hn]

/-- Witness for C6: the 429 scenario — the rate-limit error whose message
contains the hourly quota — concretely. -/
theorem C6_query_error_mapping_witness :
    query (.response 429 "" none []) =
      .error (.rateLimit
        ("Rate limit exceeded. Linear API allows " ++ toString RATE_LIMIT ++
         " requests per hour.\nPlease wait before making more requests."))
  ∧ (∃ before after,
      ("Rate limit exceeded. Linear API allows " ++ toString RATE_LIMIT ++
       " requests per hour.\nPlease wait before making more requests.") =
      before ++ "1500" ++ after) :=
  ⟨(C6_query_error_mapping 429 "" none []).2.1 (by omega) rfl,
   (C6_query_error_mapping 429 "" none []).2.2.1 rfl⟩

end Transport

namespace Fmt

/-- Python strings as code-point sequences: grouping and sorting in
`format_table_grouped` compare strings, so the model computes on their
characters. -/
abbrev PyStr := List Char

/-- Code-point lexicographic string comparison, Python's `<=` on `str`. -/
def charsLe : PyStr → PyStr → Bool
  | [], _ => true
  | _ :: _, [] => false
  | a :: as, b :: bs => if a < b then true else if b < a then false else charsLe as bs

theorem charsLe_total (x y : PyStr) : charsLe x y = true ∨ charsLe y x = true := by
  induction x generalizing y with
  | nil => exact Or.inl rfl
  | cons a as ih =>
    cases y with
    | nil => exact Or.inr rfl
    | cons b bs =>
      by_cases hab : a < b
      · exact Or.inl (by simp [charsLe, hab])
      · by_cases hba : b < a
        · exact Or.inr (by simp [charsLe, hba])
        · rcases ih bs with h | h
          · exact Or.inl (by simp [charsLe, hab, hba, h])
          · exact Or.inr (by simp [charsLe, hab, hba, h])

theorem charsLe_trans {x y z : PyStr} (h1 : charsLe x y = true)
    (h2 : charsLe y z = true) : charsLe x z = true := by
  induction x generalizing y z with
  | nil => rfl
  | cons a as ih =>
    cases y with
    | nil => simp [charsLe] at h1
    | cons b bs =>
      cases z with
      | nil => simp [charsLe] at h2
      | cons c cs =>
        simp only [charsLe] at h1 h2 ⊢
        by_cases hab : a < b
        · by_cases hbc : b < c
          · rw [if_pos (lt_trans hab hbc)]
          · by_cases hcb : c < b
            · rw [if_neg hbc, if_pos hcb] at h2
              exact absurd h2 (by simp)
            · have hbc' : b = c := le_antisymm (not_lt.mp hcb) (not_lt.mp hbc)
              subst hbc'
              rw [if_pos hab]
        · by_cases hba : b < a
          · rw [if_neg hab, if_pos hba] at h1
            exact absurd h1 (by simp)
          · have hab' : a = b := le_antisymm (not_lt.mp hba) (not_lt.mp hab)
            subst hab'
            rw [if_neg hab, if_neg hba] at h1
            by_cases hac : a < c
            · rw [if_pos hac]
            · by_cases hca : c < a
              · rw [if_neg hac, if_pos hca] at h2
                exact absurd h2 (by simp)
              · rw [if_neg hac, if_neg hca] at h2 ⊢
                exact ih h1 h2

/-- The team reference of an issue row (mandatory in `models.Issue`). -/
structure GTeam where
  key : PyStr
  name : PyStr
deriving DecidableEq

/-- The cycle reference of an issue row (`Cycle.name` is optional). -/
structure GCycle where
  name : Option PyStr
deriving DecidableEq

/-- The project reference of an issue row. -/
structure GProject where
  name : PyStr
deriving DecidableEq

/-- The fields of an issue that `format_table_grouped` reads for grouping. -/
structure GIssue where
  cycle : Option GCycle := none
  project : Option GProject := none
  team : GTeam
deriving DecidableEq

/-- The grouping dimension (`group_by` literal of formatters.py line 60). -/
inductive GroupBy where
  | cycle
  | project
  | team
deriving DecidableEq

/-- The bucket key of one issue (formatters.py lines 76-89): cycle/project
names fall back to the literal `"No cycle"`/`"No project"` when the reference
or its name is missing or empty (Python truthiness); team grouping always
uses `f"{team.key} - {team.name}"` — `Issue.team` is mandatory, so there is
no `"No team"` fallback branch in the source. -/
def groupKey (g : GroupBy) (i : GIssue) : PyStr :=
  match g with
  | .cycle =>
    match i.cycle with
    | some c =>
      match c.name with
      | some n => if n.isEmpty then "No cycle".toList else n
      | none => "No cycle".toList
    | none => "No cycle".toList
  | .project =>
    match i.project with
    | some p => if p.name.isEmpty then "No project".toList else p.name
    | none => "No project".toList
  | .team => i.team.key ++ " - ".toList ++ i.team.name

/-- `defaultdict(list)` accumulation: append the issue to its bucket, keeping
first-occurrence bucket order (Python dict insertion order). -/
def addIssue (gs : List (PyStr × List GIssue)) (k : PyStr) (i : GIssue) :
    List (PyStr × List GIssue) :=
  match gs with
  | [] => [(k, [i])]
  | (k', l) :: rest =>
    if k' = k then (k', l ++ [i]) :: rest else (k', l) :: addIssue rest k i

/-- The `groups` dict of `format_table_grouped` (formatters.py lines 75-89). -/
def groupIssues (g : GroupBy) (issues : List GIssue) :
    List (PyStr × List GIssue) :=
  issues.foldl (fun gs i => addIssue gs (groupKey g i) i) []

/-- `x[0].startswith("No ")`. -/
def noPre (s : PyStr) : Bool := "No ".toList.isPrefixOf s

/-- The sort key order of formatters.py line 92: Python's tuple comparison on
`(key.startswith("No "), key)` — `False` before `True`, ties by string. -/
def bucketLeB (a b : PyStr × List GIssue) : Bool :=
  if noPre a.1 = noPre b.1 then charsLe a.1 b.1 else (!noPre a.1 && noPre b.1)

/-- `sorted_groups` (formatters.py line 92): Python `sorted` is a stable sort
by a total preorder key; `List.insertionSort` is a stable sort by the same
preorder, hence produces the identical list. -/
def sortedGroups (g : GroupBy) (issues : List GIssue) :
    List (PyStr × List GIssue) :=
  List.insertionSort (fun a b => bucketLeB a b = true) (groupIssues g issues)

theorem bucketLeB_total (a b : PyStr × List GIssue) :
    bucketLeB a b = true ∨ bucketLeB b a = true := by
  unfold bucketLeB
  by_cases h : noPre a.1 = noPre b.1
  · simpa [h] using charsLe_total a.1 b.1
  · cases ha : noPre a.1 <;> cases hb : noPre b.1 <;> simp_all

theorem bucketLeB_trans {a b c : PyStr × List GIssue}
    (h1 : bucketLeB a b = true) (h2 : bucketLeB b c = true) :
    bucketLeB a c = true := by
  unfold bucketLeB at h1 h2 ⊢
  cases ha : noPre a.1 <;> cases hb : noPre b.1 <;> cases hc : noPre c.1 <;>
    simp_all <;>
    exact charsLe_trans h1 h2

end Fmt

namespace Fmt

theorem noPre_mono {x y : PyStr × List GIssue} (h : bucketLeB x y = true)
    (hx : noPre x.1 = true) : noPre y.1 = true := by
  unfold bucketLeB at h
  cases hy : noPre y.1 <;> simp_all

/-- Claim C9 counterexample: grouping two issues by project, one in a project
literally named "No Star" (not the fallback bucket) and one in "Zebra", the
code places the "No Star" bucket last even though it is a named bucket that
sorts alphabetically before "Zebra" — the produced bucket order is not
alphabetical on the non-fallback buckets, contradicting the claim. -/
theorem C9_counterexample_no_prefixed_bucket :
    ((sortedGroups .project
      [ { project := some ⟨"No Star".toList⟩,
          team := ⟨"T".toList, "t".toList⟩ },
        { project := some ⟨"Zebra".toList⟩,
          team := ⟨"T".toList, "t".toList⟩ } ]).map Prod.fst
      = ["Zebra".toList, "No Star".toList])
  ∧ charsLe "No Star".toList "Zebra".toList = true
  ∧ "No Star".toList ≠ "No project".toList
  ∧ ¬ List.Pairwise (fun a b => charsLe a b = true)
      ((sortedGroups .project
        [ { project := some ⟨"No Star".toList⟩,
            team := ⟨"T".toList, "t".toList⟩ },
          { project := some ⟨"Zebra".toList⟩,
            team := ⟨"T".toList, "t".toList⟩ } ]).map Prod.fst) := by
  refine ⟨by decide, by decide, by decide, by decide⟩

/-- Claim C9 (amended): the grouped table orders buckets by the pair
(starts-with-"No ", bucket name): every bucket whose name starts with "No "
— the literal fallback buckets and any genuine name starting with "No " —
comes after every bucket whose name does not, and each segment is in
code-point alphabetical order; the bucket list is a permutation of the
first-occurrence grouping; issues lacking a cycle or project fall into the
literal "No cycle"/"No project" bucket; team grouping keys every issue by
"key - name" (the team reference is mandatory, there is no "No team"
fallback). -/
theorem C9_grouped_table_ordering (g : GroupBy) (issues : List GIssue) :
    List.Pairwise (fun a b => bucketLeB a b = true) (sortedGroups g issues)
  ∧ (sortedGroups g issues).Perm (groupIssues g issues)
  ∧ (∀ l₁ l₂ x y, sortedGroups g issues = l₁ ++ x :: l₂ → y ∈ l₂ →
      noPre x.1 = true → noPre y.1 = true)
  ∧ (∀ i : GIssue, i.cycle = none → groupKey .cycle i = "No cycle".toList)
  ∧ (∀ i : GIssue, i.project = none → groupKey .project i = "No project".toList)
  ∧ (∀ i : GIssue, groupKey .team i = i.team.key ++ " - ".toList ++ i.team.name) := by
  haveI : IsTotal (PyStr × List GIssue) (fun a b => bucketLeB a b = true) :=
    ⟨bucketLeB_total⟩
  haveI : IsTrans (PyStr × List GIssue) (fun a b => bucketLeB a b = true) :=
    ⟨fun _ _ _ => bucketLeB_trans⟩
  have hsorted : List.Pairwise (fun a b => bucketLeB a b = true)
      (sortedGroups g issues) :=
    List.sorted_insertionSort _ _
  refine ⟨hsorted, List.perm_insertionSort _ _, ?_, ?_, ?_, ?_⟩
  · intro l₁ l₂ x y heq hy hx
    rw [heq] at hsorted
    have h := (List.pairwise_append.mp hsorted).2.1
    exact noPre_mono ((List.pairwise_cons.mp h).1 y hy) hx
  · intro i h
    simp [groupKey, h]
  · intro i h
    simp [groupKey, h]
  · intro i
    rfl

/-- Witness for C9 (amended) at a concrete two-issue list and a concrete
cycle-less issue. -/
theorem C9_grouped_table_ordering_witness :
    List.Pairwise (fun a b => bucketLeB a b = true)
      (sortedGroups .project
        [ { project := some ⟨"No Star".toList⟩,
            team := ⟨"T".toList, "t".toList⟩ },
          { project := some ⟨"Zebra".toList⟩,
            team := ⟨"T".toList, "t".toList⟩ } ])
  ∧ groupKey .cycle { team := ⟨"T".toList, "t".toList⟩ } = "No cycle".toList :=
  ⟨(C9_grouped_table_ordering .project
      [ { project := some ⟨"No Star".toList⟩,
          team := ⟨"T".toList, "t".toList⟩ },
        { project := some ⟨"Zebra".toList⟩,
          team := ⟨"T".toList, "t".toList⟩ } ]).1,
   (C9_grouped_table_ordering .cycle []).2.2.2.1
     { team := ⟨"T".toList, "t".toList⟩ } rfl⟩

end Fmt

namespace Editor

/-- Python strings as code-point sequences; the editor round-trip computes on
their characters. -/
abbrev PyStr := List Char

/-- The characters Python `str.strip()` / `str.isspace()` treat as
whitespace: the ASCII whitespace and separators plus the Unicode whitespace
code points (NEL, NBSP, the Ogham and general-punctuation spaces, LS, PS,
NNBSP, MMSP, ideographic space). -/
def pyWsChars : List Char :=
  [' ', '\t', '\n', '\r', '\x0b', '\x0c', '\x1c', '\x1d', '\x1e', '\x1f',
   '\x85', '\xa0', '\u1680', '\u2000', '\u2001', '\u2002', '\u2003',
   '\u2004', '\u2005', '\u2006', '\u2007', '\u2008', '\u2009', '\u200a',
   '\u2028', '\u2029', '\u202f', '\u205f', '\u3000']

/-- Python whitespace test, over the full `str.strip()` class. -/
def pyWs (c : Char) : Bool := pyWsChars.contains c

/-- Python `str.strip()`: drop leading and trailing whitespace. -/
def pyStrip (s : PyStr) : PyStr :=
  ((s.dropWhile pyWs).reverse.dropWhile pyWs).reverse

/-- A scalar value as `yaml.safe_load` hands it to `_validate_and_merge`:
`None`, a bool, an int, or a string.  (Floats and nested collections are out
of the model's scope; none are produced by the serializer.) -/
inductive YVal where
  | ynull
  | ybool (b : Bool)
  | yint (n : Int)
  | ystr (s : PyStr)
deriving DecidableEq

/-- Decimal digits of a natural number, most significant first. -/
def natDigits (n : Nat) : List Char :=
  ((Nat.digits 10 n).map (fun d => Char.ofNat (48 + d))).reverse

/-- Python `str(n)` for a natural number. -/
def natToDec (n : Nat) : PyStr := if n = 0 then ['0'] else natDigits n

/-- Python `str(i)` for an integer. -/
def intToDec (i : Int) : PyStr :=
  if i < 0 then '-' :: natToDec i.natAbs else natToDec i.toNat

/-- Python `str()` of a scalar (`str(None) = "None"`, `str(True) = "True"`). -/
def pyStrOf : YVal → PyStr
  | .ynull => "None".toList
  | .ybool true => "True".toList
  | .ybool false => "False".toList
  | .yint n => intToDec n
  | .ystr s => s

/-- ASCII decimal digit test. -/
def isDigit (c : Char) : Bool := 48 ≤ c.toNat && c.toNat ≤ 57

/-- Value of a most-significant-first digit string. -/
def digitsToNat (cs : List Char) : Nat :=
  Nat.ofDigits 10 ((cs.map (fun c => c.toNat - 48)).reverse)

/-- Tail of a digit run with PEP 515 grouping: digits, with single
underscores allowed only between two digits.  Returns the digits with the
underscores removed; `none` on a non-digit or misplaced underscore. -/
def digitRunTail? : PyStr → Option PyStr
  | [] => some []
  | c :: rest =>
    if c = '_' then
      match rest with
      | [] => none
      | c2 :: rest2 =>
        if isDigit c2 then (digitRunTail? rest2).map (fun ds => c2 :: ds)
        else none
    else if isDigit c then (digitRunTail? rest).map (fun ds => c :: ds)
    else none

/-- A digit run: a digit followed by digits with optional single-underscore
group separators (PEP 515), as accepted by Python `int()`. -/
def digitRun? : PyStr → Option PyStr
  | [] => none
  | c :: rest =>
    if isDigit c then (digitRunTail? rest).map (fun ds => c :: ds)
    else none

/-- Decimal integer syntax of Python `int(str)` after whitespace stripping:
optional sign followed by a digit run with PEP 515 underscore grouping
(so `int("0_4") = 4`; `"_4"`, `"4_"` and `"4__2"` raise). -/
def decToInt? (s : PyStr) : Option Int :=
  match s with
  | [] => none
  | c :: rest =>
    if c = '-' then (digitRun? rest).map (fun ds => -(digitsToNat ds : Int))
    else if c = '+' then (digitRun? rest).map (fun ds => (digitsToNat ds : Int))
    else (digitRun? (c :: rest)).map (fun ds => (digitsToNat ds : Int))

/-- Python `int(x)` on a scalar, `none` when it raises
`ValueError`/`TypeError`: `int` of a bool is its numeric value, `int` of a
string strips whitespace and parses a signed decimal numeral with PEP 515
underscore grouping, `int(None)` raises.  The model is exact on ASCII
strings; `int()` additionally accepts non-ASCII decimal digits, which are
outside the embedding. -/
def pythonInt : YVal → Option Int
  | .ynull => none
  | .ybool b => some (if b then 1 else 0)
  | .yint n => some n
  | .ystr s => decToInt? (pyStrip s)

/-- Scope predicate for the `int()` model: string scalars restricted to
ASCII content (where `decToInt?` is an exact model of `int(str)`);
non-string scalars are unrestricted. -/
def asciiVal : YVal → Bool
  | .ystr s => s.all (fun c => c.toNat ≤ 127)
  | _ => true

/-- Python falsiness of a scalar (`if not title`). -/
def yFalsy : YVal → Bool
  | .ynull => true
  | .ybool b => !b
  | .yint n => n == 0
  | .ystr s => s.isEmpty

/-- `IssueData` (utils/editor.py lines 13-27): editable fields plus read-only
metadata. -/
structure IssueData where
  title : PyStr
  description : Option PyStr := none
  priority : Int := 0
  estimate : Option Int := none
  team_name : Option PyStr := none
  assignee_email : Option PyStr := none
  project_name : Option PyStr := none
  labels : Option (List PyStr) := none
  state_name : Option PyStr := none
deriving DecidableEq

def titleKey : PyStr := "title".toList

def descriptionKey : PyStr := "description".toList

def priorityKey : PyStr := "priority".toList

def estimateKey : PyStr := "estimate".toList

def titleEmptyMsg : PyStr := "Title cannot be empty".toList

def priorityRangeMsg : PyStr :=
  ("Priority must be between 0 and 4 " ++
   "(0=None, 1=Urgent, 2=High, 3=Medium, 4=Low)").toList

def estimateNegMsg : PyStr := "Estimate must be non-negative".toList

/-- The description block of `_validate_and_merge` (editor.py lines 209-211):
`None` stays `None`, otherwise `str(...).strip() or None`. -/
def descriptionResult (edited : List (PyStr × YVal)) : Option PyStr :=
  let descV := (edited.lookup descriptionKey).getD .ynull
  if descV = .ynull then none
  else
    let d := pyStrip (pyStrOf descV)
    if d.isEmpty then none else some d

/-- The priority block of `_validate_and_merge` (editor.py lines 213-227):
a missing key defaults to the original's priority, an explicit `None`
becomes 0 without validation, anything else must `int()`-convert into
`[0, 4]`. -/
def priorityResult (original : IssueData) (edited : List (PyStr × YVal)) :
    Except PyStr Int :=
  let priorityV := match edited.lookup priorityKey with
    | some v => v
    | none => .yint original.priority
  if priorityV = .ynull then .ok 0
  else
    match pythonInt priorityV with
    | none => .error ("Priority must be a number, got: ".toList ++ pyStrOf priorityV)
    | some n => if n < 0 ∨ 4 < n then .error priorityRangeMsg else .ok n

/-- The estimate block of `_validate_and_merge` (editor.py lines 229-236). -/
def estimateResult (edited : List (PyStr × YVal)) : Except PyStr (Option Int) :=
  let estV := (edited.lookup estimateKey).getD .ynull
  if estV = .ynull then .ok none
  else
    match pythonInt estV with
    | none => .error ("Estimate must be a number, got: ".toList ++ pyStrOf estV)
    | some e => if e < 0 then .error estimateNegMsg else .ok (some e)

/-- `_validate_and_merge` (editor.py lines 201-250): title is required and
non-empty after stripping; the validated edited fields are merged with the
original's read-only metadata. -/
def validate_and_merge (original : IssueData) (edited : List (PyStr × YVal)) :
    Except PyStr IssueData :=
  let titleV := (edited.lookup titleKey).getD .ynull
  if yFalsy titleV || (pyStrip (pyStrOf titleV)).isEmpty then
    .error titleEmptyMsg
  else
    match priorityResult original edited with
    | .error e => .error e
    | .ok priority =>
      match estimateResult edited with
      | .error e => .error e
      | .ok estimate =>
        .ok { title := pyStrip (pyStrOf titleV)
            , description := descriptionResult edited
            , priority := priority
            , estimate := estimate
            , team_name := original.team_name
            , assignee_email := original.assignee_email
            , project_name := original.project_name
            , labels := original.labels
            , state_name := original.state_name }

end Editor

namespace Editor

/-- The result record `_validate_and_merge` builds when the edited document
contains title `"t"`, priority `n`, and nothing else. -/
def mergedTP (original : IssueData) (n : Int) : IssueData :=
  { title := "t".toList
  , description := none
  , priority := n
  , estimate := none
  , team_name := original.team_name
  , assignee_email := original.assignee_email
  , project_name := original.project_name
  , labels := original.labels
  , state_name := original.state_name }

theorem vam_title_prio_eq (original : IssueData) (v : YVal) (hv : v ≠ .ynull) :
    validate_and_merge original [(titleKey, .ystr "t".toList), (priorityKey, v)] =
      (match pythonInt v with
       | none => .error ("Priority must be a number, got: ".toList ++ pyStrOf v)
       | some n =>
         if n < 0 ∨ 4 < n then .error priorityRangeMsg
         else .ok (mergedTP original n)) := by
  have key : validate_and_merge original
      [(titleKey, .ystr "t".toList), (priorityKey, v)] =
      (match (if v = .ynull then (.ok 0 : Except PyStr Int)
              else match pythonInt v with
                | none => .error
                    ("Priority must be a number, got: ".toList ++ pyStrOf v)
                | some n =>
                  if n < 0 ∨ 4 < n then .error priorityRangeMsg else .ok n) with
       | .error e => .error e
       | .ok priority => .ok (mergedTP original priority)) := rfl
  rw [key, if_neg hv]
  rcases h : pythonInt v with _ | n
  · rfl
  · by_cases hr : n < 0 ∨ 4 < n <;> simp [hr]

/-- Claim C8 counterexample: an explicit `null` priority in the edited
document does not parse as an integer, yet validation succeeds (with
priority 0), contradicting "succeeds if and only if the value parses as an
integer in [0,4]". -/
theorem C8_counterexample_null_priority :
    validate_and_merge { title := "orig".toList, priority := 3 }
      [(titleKey, .ystr "t".toList), (priorityKey, .ynull)] =
      .ok (mergedTP { title := "orig".toList, priority := 3 } 0)
  ∧ pythonInt .ynull = none := ⟨rfl, rfl⟩

/-- Claim C8 (amended): for every non-null edited priority value in the
model's scope (a bool, an integer, or an ASCII string; `int()` on non-ASCII
digit characters and YAML float scalars are outside the embedding),
validation succeeds if and only if Python `int()` conversion of the value
yields an integer in [0,4] (integers and numeric strings — including
PEP 515 underscore-grouped numerals such as `"0_4"` — convert to their
value, booleans to 0/1); on success the merged priority is that integer; a
non-convertible value is rejected with the must-be-a-number error and an
out-of-range integer with the range error.  An explicit null is accepted
separately and yields priority 0. -/
theorem C8_priority_validation (original : IssueData) (v : YVal)
    (hv : v ≠ .ynull) (hscope : asciiVal v = true) :
    ((∃ r, validate_and_merge original
        [(titleKey, .ystr "t".toList), (priorityKey, v)] = .ok r) ↔
      (∃ n, pythonInt v = some n ∧ 0 ≤ n ∧ n ≤ 4))
  ∧ (∀ n, pythonInt v = some n → 0 ≤ n → n ≤ 4 →
      validate_and_merge original
        [(titleKey, .ystr "t".toList), (priorityKey, v)] =
        .ok (mergedTP original n))
  ∧ (pythonInt v = none →
      validate_and_merge original
        [(titleKey, .ystr "t".toList), (priorityKey, v)] =
        .error ("Priority must be a number, got: ".toList ++ pyStrOf v))
  ∧ (∀ n, pythonInt v = some n → (n < 0 ∨ 4 < n) →
      validate_and_merge original
        [(titleKey, .ystr "t".toList), (priorityKey, v)] =
        .error priorityRangeMsg) := by
  rw [vam_title_prio_eq original v hv]
  refine ⟨?_, ?_, ?_, ?_⟩
  · rcases h : pythonInt v with _ | n
    · simp
    · by_cases hr : n < 0 ∨ 4 < n <;> simp [hr] <;> omega
  · intro n hn h0 h4
    simp only [hn]
    rw [if_neg (by omega)]
  · intro hn
    rw [hn]
  · intro n hn hr
    simp only [hn]
    rw [if_pos hr]

/-- Witness for C8 (amended): the string "3" converts and is accepted with
priority 3; the underscore-grouped string "0_4" converts to 4 and is
accepted; the integer 7 is rejected with the range error. -/
theorem C8_priority_validation_witness :
    validate_and_merge { title := "orig".toList }
      [(titleKey, .ystr "t".toList), (priorityKey, .ystr "3".toList)] =
      .ok (mergedTP { title := "orig".toList } 3)
  ∧ validate_and_merge { title := "orig".toList }
      [(titleKey, .ystr "t".toList), (priorityKey, .ystr "0_4".toList)] =
      .ok (mergedTP { title := "orig".toList } 4)
  ∧ validate_and_merge { title := "orig".toList }
      [(titleKey, .ystr "t".toList), (priorityKey, .yint 7)] =
      .error priorityRangeMsg :=
  ⟨(C8_priority_validation { title := "orig".toList } (.ystr "3".toList)
      (by decide) (by decide)).2.1 3 (by decide) (by decide) (by decide),
   (C8_priority_validation { title := "orig".toList } (.ystr "0_4".toList)
      (by decide) (by decide)).2.1 4 (by decide) (by decide) (by decide),
   (C8_priority_validation { title := "orig".toList } (.yint 7)
      (by decide) (by decide)).2.2.2 7 rfl (by omega)⟩

end Editor

namespace Editor

/-- The record merged from an edited document with title `t` and no
description/estimate keys, at priority `n`. -/
def mergedT (original : IssueData) (t : PyStr) (n : Int) : IssueData :=
  { title := pyStrip t
  , description := none
  , priority := n
  , estimate := none
  , team_name := original.team_name
  , assignee_email := original.assignee_email
  , project_name := original.project_name
  , labels := original.labels
  , state_name := original.state_name }

theorem title_cond_false {t : PyStr} (ht : pyStrip t ≠ []) :
    (yFalsy (.ystr t) || (pyStrip (pyStrOf (.ystr t))).isEmpty) = false := by
  have htne : t.isEmpty = false := by
    cases t with
    | nil => exact absurd rfl ht
    | cons a l => rfl
  have hse : (pyStrip t).isEmpty = false := by
    cases hs : pyStrip t with
    | nil => exact absurd hs ht
    | cons a l => rfl
  simp [yFalsy, pyStrOf, htne, hse]

theorem vam_omit_eq (original : IssueData) (t : PyStr) (ht : pyStrip t ≠ []) :
    validate_and_merge original [(titleKey, .ystr t)] =
      if original.priority < 0 ∨ 4 < original.priority then
        .error priorityRangeMsg
      else .ok (mergedT original t original.priority) := by
  have key : validate_and_merge original [(titleKey, .ystr t)] =
      if (yFalsy (.ystr t) || (pyStrip (pyStrOf (.ystr t))).isEmpty) = true then
        .error titleEmptyMsg
      else
        (match (if original.priority < 0 ∨ 4 < original.priority then
                  (.error priorityRangeMsg : Except PyStr Int)
                else .ok original.priority) with
         | .error e => .error e
         | .ok p => .ok (mergedT original t p)) := rfl
  rw [key, title_cond_false ht]
  by_cases hr : original.priority < 0 ∨ 4 < original.priority <;> simp [hr]

theorem vam_null_eq (original : IssueData) (t : PyStr) (ht : pyStrip t ≠ []) :
    validate_and_merge original [(titleKey, .ystr t), (priorityKey, .ynull)] =
      .ok (mergedT original t 0) := by
  have key : validate_and_merge original
      [(titleKey, .ystr t), (priorityKey, .ynull)] =
      if (yFalsy (.ystr t) || (pyStrip (pyStrOf (.ystr t))).isEmpty) = true then
        .error titleEmptyMsg
      else .ok (mergedT original t 0) := rfl
  rw [key, title_cond_false ht]
  simp

/-- Claim C10: with a valid title and an in-range original priority, omitting
the `priority` key keeps the original record's priority while an explicit
null priority yields 0; hence for every original record with non-zero
priority the two edited documents produce different results (for an original
priority outside [0,4] the omitted-key document is rejected outright while
the null document still succeeds with 0 — also different). -/
theorem C10_priority_null_vs_omitted (original : IssueData) (t : PyStr)
    (ht : pyStrip t ≠ []) :
    (0 ≤ original.priority → original.priority ≤ 4 →
      validate_and_merge original [(titleKey, .ystr t)] =
        .ok (mergedT original t original.priority))
  ∧ validate_and_merge original [(titleKey, .ystr t), (priorityKey, .ynull)] =
      .ok (mergedT original t 0)
  ∧ (original.priority ≠ 0 →
      validate_and_merge original [(titleKey, .ystr t)] ≠
        validate_and_merge original
          [(titleKey, .ystr t), (priorityKey, .ynull)]) := by
  refine ⟨fun h0 h4 => ?_, vam_null_eq original t ht, fun hp0 => ?_⟩
  · rw [vam_omit_eq original t ht, if_neg (by omega)]
  · rw [vam_omit_eq original t ht, vam_null_eq original t ht]
    by_cases hr : original.priority < 0 ∨ 4 < original.priority
    · rw [if_pos hr]
      simp
    · rw [if_neg hr]
      simp [mergedT]
      intro h
      exact absurd h hp0

/-- Witness for C10 at a concrete record with priority 3. -/
theorem C10_priority_null_vs_omitted_witness :
    validate_and_merge { title := "orig".toList, priority := 3 }
      [(titleKey, .ystr "t".toList)] =
      .ok (mergedT { title := "orig".toList, priority := 3 } "t".toList 3)
  ∧ validate_and_merge { title := "orig".toList, priority := 3 }
      [(titleKey, .ystr "t".toList), (priorityKey, .ynull)] =
      .ok (mergedT { title := "orig".toList, priority := 3 } "t".toList 0)
  ∧ validate_and_merge { title := "orig".toList, priority := 3 }
      [(titleKey, .ystr "t".toList)] ≠
      validate_and_merge { title := "orig".toList, priority := 3 }
        [(titleKey, .ystr "t".toList), (priorityKey, .ynull)] :=
  ⟨(C10_priority_null_vs_omitted { title := "orig".toList, priority := 3 }
      "t".toList (by decide)).1 (by decide) (by decide),
   (C10_priority_null_vs_omitted { title := "orig".toList, priority := 3 }
      "t".toList (by decide)).2.1,
   (C10_priority_null_vs_omitted { title := "orig".toList, priority := 3 }
      "t".toList (by decide)).2.2 (by decide)⟩

end Editor

namespace Editor

end Editor

namespace Editor

theorem char_ofNat_digit : ∀ d, d < 10 → (Char.ofNat (48 + d)).toNat = 48 + d := by
  decide

theorem natDigits_all_digit (n : Nat) : ∀ c ∈ natDigits n, isDigit c = true := by
  intro c hc
  unfold natDigits at hc
  rw [List.mem_reverse] at hc
  obtain ⟨d, hd, rfl⟩ := List.mem_map.mp hc
  have hlt : d < 10 := Nat.digits_lt_base (by norm_num) hd
  have hv := char_ofNat_digit d hlt
  simp only [isDigit, hv]
  simp only [Bool.and_eq_true, decide_eq_true_eq]
  omega

theorem natToDec_all_digit (n : Nat) : ∀ c ∈ natToDec n, isDigit c = true := by
  unfold natToDec
  by_cases h : n = 0
  · simp [h]
    decide
  · simp only [h, if_false]
    exact natDigits_all_digit n

theorem isDigit_ne (c : Char) (h : isDigit c = true) :
    c ≠ '-' ∧ c ≠ '+' ∧ c ≠ '\n' ∧ c ≠ '|' ∧ c ≠ ':' ∧ c ≠ '#' ∧ c ≠ ' ' := by
  refine ⟨?_, ?_, ?_, ?_, ?_, ?_, ?_⟩ <;> rintro rfl <;> simp [isDigit] at h

theorem intToDec_no_nl (i : Int) : ∀ c ∈ intToDec i, c ≠ '\n' := by
  intro c hc
  unfold intToDec at hc
  by_cases h : i < 0
  · rw [if_pos h, List.mem_cons] at hc
    rcases hc with rfl | hc
    · decide
    · exact (isDigit_ne c (natToDec_all_digit _ c hc)).2.2.1
  · rw [if_neg h] at hc
    exact (isDigit_ne c (natToDec_all_digit _ c hc)).2.2.1

end Editor

namespace Editor

end Editor

namespace Editor

end Editor

namespace Editor

end Editor

namespace Editor

end Editor

namespace Editor

end Editor

namespace Editor

end Editor

namespace Editor

end Editor

namespace Editor

end Editor
